import Mathlib

/-!
Verification of the device-report normalization scripts in this repository
(arista-eos-port-utilization.py, cisco-ios-xe-bgp-status.py,
juniper-junos-ospf-status.py, dns-domain-checker.py).

The Python data values flowing through the scripts (decoded JSON from eAPI,
parsed text fields, XML node texts) are shallowly embedded as the inductive
type JVal below.  Python exceptions relevant to the defensive-extraction
code paths are embedded as PyErr; a guarded block that catches a given set
of exception classes becomes an explicit handler on Except PyErr.  Python
floats are idealized as rationals; every arithmetic operation used by the
scripts (true division, multiplication, comparison, round to two decimals)
is given an executable definition on Rat built from mkRat and integer
arithmetic, together with lemmas identifying them with the standard field
operations on Rat.  The network transport (pyeapi, paramiko, PyEZ, the DNS
resolver) is out of scope: each embedded function takes the already-decoded
collaborator data as an argument, exactly at the boundary where the script
code under analysis begins.  Clock reads (the timestamp field) are omitted.
-/

/-- Python exception kinds distinguished by the except clauses of the
defensive extraction blocks in the scripts. -/
inductive PyErr where
  | typeError
  | keyError
  | valueError
  | attrError
  deriving DecidableEq, Repr

/-- A decoded Python/JSON value: number (int or float, idealized as a
rational), string, boolean, None, dict with string keys, or list. -/
inductive JVal where
  | num (q : ℚ)
  | str (s : String)
  | bool (b : Bool)
  | null
  | obj (fields : List (String × JVal))
  | arr (elems : List JVal)

/-- Dict lookup: first binding of the key in the association list. -/
def jlookup (fs : List (String × JVal)) (key : String) : Option JVal :=
  match fs.find? (fun p => p.1 == key) with
  | some p => some p.2
  | none => none

/-- Python equality of a value against a string literal: only the equal
string compares equal; numbers, booleans, None, dicts and lists are never
equal to a string. -/
def jvalEqStr (v : JVal) (s : String) : Bool :=
  match v with
  | .str t => t == s
  | _ => false

/-- Executable substring test on character lists (needle occurs inside
haystack), modelling the Python operator needle in haystack on strings. -/
def listIsInfix (needle : List Char) : List Char → Bool
  | [] => needle.isEmpty
  | c :: t => needle.isPrefixOf (c :: t) || listIsInfix needle t

/-- Python substring containment needle in hay for strings. -/
def strIn (needle hay : String) : Bool :=
  listIsInfix needle.toList hay.toList

/-- Python s.startswith(pre). -/
def pyStartswith (s pre : String) : Bool :=
  pre.toList.isPrefixOf s.toList

/-- Python key in v.  Dict: key membership.  String: substring test.
List: membership by equality against the elements.  Numbers, booleans and
None are not containers: TypeError. -/
def pyIn (key : String) (v : JVal) : Except PyErr Bool :=
  match v with
  | .obj fs => .ok (jlookup fs key).isSome
  | .str s => .ok (listIsInfix key.toList s.toList)
  | .arr xs => .ok (xs.any (fun x => jvalEqStr x key))
  | _ => .error .typeError

/-- Python v.get(key, dflt).  Only dicts have the get method; on any other
value the attribute access raises AttributeError. -/
def pyGet (v : JVal) (key : String) (dflt : JVal) : Except PyErr JVal :=
  match v with
  | .obj fs => .ok ((jlookup fs key).getD dflt)
  | _ => .error .attrError

/-- Python v[key] subscripting: KeyError when the key is absent from a
dict, TypeError when the value is not a mapping. -/
def pySubscript (v : JVal) (key : String) : Except PyErr JVal :=
  match v with
  | .obj fs =>
    match jlookup fs key with
    | some x => .ok x
    | none => .error .keyError
  | _ => .error .typeError

/-- A try block whose except clause catches (TypeError, KeyError,
ValueError) and falls back to the default the target variable already
held; AttributeError propagates. -/
def catchTKV {α : Type} (x : Except PyErr α) (dflt : α) : Except PyErr α :=
  match x with
  | .ok a => .ok a
  | .error .typeError => .ok dflt
  | .error .keyError => .ok dflt
  | .error .valueError => .ok dflt
  | .error e => .error e

/-- A try block whose except clause catches (TypeError, KeyError) only;
ValueError and AttributeError propagate. -/
def catchTK {α : Type} (x : Except PyErr α) (dflt : α) : Except PyErr α :=
  match x with
  | .ok a => .ok a
  | .error .typeError => .ok dflt
  | .error .keyError => .ok dflt
  | .error e => .error e

/-- Numeric value of a list of decimal digit characters. -/
def natOfDigits (cs : List Char) : ℕ :=
  cs.foldl (fun a c => a * 10 + (c.toNat - 48)) 0

/-- All characters are decimal digits. -/
def digitsOnly (cs : List Char) : Bool :=
  cs.all Char.isDigit

/-- Split a leading sign character off a literal. -/
def splitSign (cs : List Char) : Bool × List Char :=
  match cs with
  | '-' :: r => (true, r)
  | '+' :: r => (false, r)
  | r => (false, r)

/-- CPython int(s) on a plain signed decimal integer literal; any other
string is rejected (ValueError in the caller).  Whitespace padding and
underscore separators, which never occur in the data handled by these
scripts, are treated as unparseable. -/
def pyIntOfStr (s : String) : Option ℤ :=
  let (neg, ds) := splitSign s.toList
  if ds.isEmpty || !digitsOnly ds then none
  else some (if neg then -(natOfDigits ds : ℤ) else (natOfDigits ds : ℤ))

/-- CPython float(s) on a plain signed decimal literal, with an optional
single decimal point and at least one digit; other accepted CPython forms
(exponents, inf, nan, whitespace padding, underscores), which never occur
in the data handled by these scripts, are treated as unparseable. -/
def pyFloatOfStr (s : String) : Option ℚ :=
  let (neg, ds) := splitSign s.toList
  let ip := ds.takeWhile (fun c => c ≠ '.')
  let rest := ds.dropWhile (fun c => c ≠ '.')
  match rest with
  | [] =>
    if ip.isEmpty || !digitsOnly ip then none
    else some (mkRat (if neg then -(natOfDigits ip : ℤ) else (natOfDigits ip : ℤ)) 1)
  | _ :: fp =>
    if fp.any (fun c => c = '.') then none
    else if ip.isEmpty && fp.isEmpty then none
    else if !digitsOnly ip || !digitsOnly fp then none
    else
      let k := fp.length
      let v : ℤ := (natOfDigits ip * 10 ^ k + natOfDigits fp : ℕ)
      some (mkRat (if neg then -v else v) (10 ^ k))

/-- Python float(v): numbers pass through, booleans become 0 or 1, strings
are parsed (ValueError on failure), everything else is a TypeError. -/
def pyFloat (v : JVal) : Except PyErr ℚ :=
  match v with
  | .num q => .ok q
  | .bool b => .ok (if b then 1 else 0)
  | .str s =>
    match pyFloatOfStr s with
    | some q => .ok q
    | none => .error .valueError
  | _ => .error .typeError

/-- Python int(v): floats truncate toward zero, booleans become 0 or 1,
strings are parsed as integer literals (ValueError on failure), everything
else is a TypeError. -/
def pyInt (v : JVal) : Except PyErr ℤ :=
  match v with
  | .num q => .ok (Int.tdiv q.num (q.den : ℤ))
  | .bool b => .ok (if b then 1 else 0)
  | .str s =>
    match pyIntOfStr s with
    | some n => .ok n
    | none => .error .valueError
  | _ => .error .typeError

/-!  Executable rational arithmetic.  The standard Rat field operations in
this toolchain are irreducible, so the embedded code uses the following
mkRat-based equivalents, which reduce definitionally; lemmas below identify
them with the standard operations. -/

/-- Executable multiplication on Rat. -/
def qmul (a b : ℚ) : ℚ := mkRat (a.num * b.num) ((a.den * b.den : ℕ))

/-- Executable true division on Rat (0 on division by zero, which the
embedded code never reaches thanks to its guards). -/
def qdiv (a b : ℚ) : ℚ :=
  if b.num < 0 then mkRat (-(a.num * (b.den : ℤ))) (a.den * b.num.natAbs)
  else mkRat (a.num * (b.den : ℤ)) (a.den * b.num.natAbs)

/-- Executable strict comparison on Rat. -/
def qlt (a b : ℚ) : Bool :=
  decide (a.num * (b.den : ℤ) < b.num * (a.den : ℤ))

/-- Round a rational to the nearest integer, ties to even, written with
integer arithmetic only: with f the floor, r2 compares twice the
fractional remainder against one. -/
def roundHalfEven (q : ℚ) : ℤ :=
  let f := Int.fdiv q.num (q.den : ℤ)
  let r2 := 2 * (q.num - f * (q.den : ℤ))
  if r2 < (q.den : ℤ) then f
  else if (q.den : ℤ) < r2 then f + 1
  else if f % 2 = 0 then f else f + 1

/-- CPython round(x, 2), idealized to exact decimal rounding on the
rational value (ties to even, as in CPython). -/
def round2 (q : ℚ) : ℚ :=
  mkRat (roundHalfEven (qmul q 100)) 100

/-!  arista-eos-port-utilization.py.

The function get_port_utilization is embedded from the point where the five
command outputs have been decoded and unwrapped: version_data is the value
of show_version result 0; descs, statuses, rates and errs are the values
the script binds to interface_descriptions, interface_status,
interface_rates and interface_errors (each defaulted to an empty dict when
its own unwrapping fails, an already-absorbed step that happens before the
code modelled here).  Any exception reaching the outermost try of
get_port_utilization is re-raised as a RuntimeError; its message text is
produced by the interpreter and is abstracted here to a fixed description,
which no theorem below inspects. -/

/-- Device identity block built at lines 99 to 105 of the script. -/
structure DeviceInfo where
  hostname : JVal
  platform : JVal
  model : JVal
  serial_number : JVal
  version : JVal

/-- Lines 66 to 105: each identity slot is extracted with
version_data.get(key, "Unknown") inside a try catching (KeyError,
TypeError); a hostname that is still "Unknown" afterwards is replaced by
the connection host; platform is the constant "Arista EOS".  An
AttributeError (version_data not a mapping) propagates. -/
def resolveDevice (host : String) (version_data : JVal) : Except PyErr DeviceInfo := do
  let hostname0 ← catchTK (pyGet version_data "hostname" (JVal.str "Unknown")) (JVal.str "Unknown")
  let model ← catchTK (pyGet version_data "modelName" (JVal.str "Unknown")) (JVal.str "Unknown")
  let serial ← catchTK (pyGet version_data "serialNumber" (JVal.str "Unknown")) (JVal.str "Unknown")
  let version ← catchTK (pyGet version_data "version" (JVal.str "Unknown")) (JVal.str "Unknown")
  let hostname := if jvalEqStr hostname0 "Unknown" then JVal.str host else hostname0
  pure { hostname := hostname, platform := JVal.str "Arista EOS", model := model,
         serial_number := serial, version := version }

/-- One entry of the interfaces output list (lines 253 to 265). -/
structure InterfaceInfo where
  name : String
  description : JVal
  status : JVal
  bandwidth_mbps : ℚ
  input_rate_mbps : ℚ
  output_rate_mbps : ℚ
  input_utilization : ℚ
  output_utilization : ℚ
  input_errors : ℤ
  output_errors : ℤ
  high_utilization : Bool

/-- Lines 188 to 192: interface_descriptions.get(name, {}).get("description", ""),
catching (TypeError, KeyError); an AttributeError (a non-dict table or a
non-dict entry) propagates to the per-interface handler. -/
def extractDescription (descs : JVal) (name : String) : Except PyErr JVal :=
  catchTK (do
    let entry ← pyGet descs name (JVal.obj [])
    pyGet entry "description" (JVal.str "")) (JVal.str "")

/-- Lines 194 to 199: int(status.get("bandwidth", 0)) / 1000000 when
"bandwidth" is in status, else 0, catching (TypeError, KeyError,
ValueError). -/
def extractBandwidth (status : JVal) : Except PyErr ℚ :=
  catchTKV (do
    let c ← pyIn "bandwidth" status
    if c then do
      let b ← pyGet status "bandwidth" (JVal.num 0)
      let n ← pyInt b
      pure (qdiv ((n : ℤ) : ℚ) 1000000)
    else pure 0) 0

/-- Lines 201 to 206: status.get("linkStatus", "unknown"), catching
(TypeError, KeyError); an AttributeError (status not a dict) propagates. -/
def extractOperStatus (status : JVal) : Except PyErr JVal :=
  catchTK (pyGet status "linkStatus" (JVal.str "unknown")) (JVal.str "unknown")

/-- Lines 212 to 224 (and symmetrically for outRate):
float(rates.get(name, {}).get(key, 0)) when name is in rates, else 0,
catching (TypeError, KeyError, ValueError); an AttributeError (a non-dict
rates table whose substring test succeeded, or a non-dict entry)
propagates to the per-interface handler. -/
def extractRate (rates : JVal) (name key : String) : Except PyErr ℚ :=
  catchTKV (do
    let c ← pyIn name rates
    if c then do
      let entry ← pyGet rates name (JVal.obj [])
      let v ← pyGet entry key (JVal.num 0)
      pyFloat v
    else pure 0) 0

/-- Lines 235 to 247: int(errs.get(name, {}).get(key, 0)) when name is in
errs, else 0, catching (TypeError, KeyError, ValueError). -/
def extractErr (errs : JVal) (name key : String) : Except PyErr ℤ :=
  catchTKV (do
    let c ← pyIn name errs
    if c then do
      let entry ← pyGet errs name (JVal.obj [])
      let v ← pyGet entry key (JVal.num 0)
      pyInt v
    else pure 0) 0

/-- Lines 226 to 265: derived utilizations with the bandwidth guard, the
strict threshold comparison on the unrounded values, and the output record
with rates and utilizations rounded to two decimals. -/
def buildInterfaceInfo (threshold : ℚ) (name : String) (description oper : JVal)
    (bw inR outR : ℚ) (ie oe : ℤ) : InterfaceInfo :=
  let inU := if qlt 0 bw then qmul (qdiv inR bw) 100 else 0
  let outU := if qlt 0 bw then qmul (qdiv outR bw) 100 else 0
  let hi := qlt threshold inU || qlt threshold outU
  { name := name, description := description, status := oper,
    bandwidth_mbps := bw,
    input_rate_mbps := round2 inR, output_rate_mbps := round2 outR,
    input_utilization := round2 inU, output_utilization := round2 outU,
    input_errors := ie, output_errors := oe,
    high_utilization := hi }

/-- Lines 182 to 270, the body of the per-interface loop for one
interface.  Returns the produced record (none when an uncaught exception
reached the per-interface except, which logs and skips) together with the
increments the iteration applied to the active, high-utilization and
error-interface counters before any such exception. -/
def processInterface (threshold : ℚ) (descs rates errs : JVal) (name : String)
    (status : JVal) : Option InterfaceInfo × Bool × Bool × Bool :=
  match extractDescription descs name with
  | .error _ => (none, false, false, false)
  | .ok description =>
  match extractBandwidth status with
  | .error _ => (none, false, false, false)
  | .ok bw =>
  match extractOperStatus status with
  | .error _ => (none, false, false, false)
  | .ok oper =>
  let active := jvalEqStr oper "up"
  match extractRate rates name "inRate" with
  | .error _ => (none, active, false, false)
  | .ok inR =>
  match extractRate rates name "outRate" with
  | .error _ => (none, active, false, false)
  | .ok outR =>
  let inU := if qlt 0 bw then qmul (qdiv inR bw) 100 else 0
  let outU := if qlt 0 bw then qmul (qdiv outR bw) 100 else 0
  let hi := qlt threshold inU || qlt threshold outU
  match extractErr errs name "inErrors" with
  | .error _ => (none, active, hi, false)
  | .ok ie =>
  match extractErr errs name "outErrors" with
  | .error _ => (none, active, hi, false)
  | .ok oe =>
  let errFlag := decide (0 < ie) || decide (0 < oe)
  (some (buildInterfaceInfo threshold name description oper bw inR outR ie oe),
   active, hi, errFlag)

/-- Lines 181 to 270: iterate interface_status.items() in order, keeping
only names that start with "Ethernet", collecting the produced records and
summing the three counters. -/
def processLoop (threshold : ℚ) (descs rates errs : JVal) :
    List (String × JVal) → List InterfaceInfo × ℕ × ℕ × ℕ
  | [] => ([], 0, 0, 0)
  | (name, status) :: rest =>
    if pyStartswith name "Ethernet" then
      let r := processInterface threshold descs rates errs name status
      let acc := processLoop threshold descs rates errs rest
      (r.1.toList ++ acc.1,
       (cond r.2.1 1 0) + acc.2.1,
       (cond r.2.2.1 1 0) + acc.2.2.1,
       (cond r.2.2.2 1 0) + acc.2.2.2)
    else processLoop threshold descs rates errs rest

/-- The ranking key of line 273: the larger of the two stored utilization
percentages. -/
def utilizationRank (x : InterfaceInfo) : ℚ :=
  max x.input_utilization x.output_utilization

/-- Lines 272 to 273: interfaces.sort(key=..., reverse=True), a stable
descending sort by the ranking key.  A stable sort is uniquely determined
by its ordering, so the insertion sort used here produces exactly the list
the script produces. -/
def sortInterfaces (l : List InterfaceInfo) : List InterfaceInfo :=
  l.insertionSort (fun a b => utilizationRank b ≤ utilizationRank a)

/-- Summary block of lines 276 to 281. -/
structure AristaSummary where
  total_interfaces : ℕ
  active_interfaces : ℕ
  high_utilization_interfaces : ℕ
  error_interfaces : ℕ

/-- Result structure of lines 287 to 292 (timestamp omitted: clock read). -/
structure AristaReport where
  device : DeviceInfo
  interfaces : List InterfaceInfo
  summary : AristaSummary

/-- Lines 57 to 297 of get_port_utilization, from the decoded command
outputs onward.  The outermost except re-raises any escaped exception as a
RuntimeError whose interpreter-generated message is abstracted. -/
def get_port_utilization (host : String) (version_data descs statuses rates errs : JVal)
    (threshold : ℚ) : Except String AristaReport :=
  match resolveDevice host version_data with
  | .error _ => .error "Failed to retrieve port utilization data: device info error"
  | .ok dev =>
    match statuses with
    | .obj sfs =>
      let res := processLoop threshold descs rates errs sfs
      let sorted := sortInterfaces res.1
      .ok { device := dev, interfaces := sorted,
            summary := { total_interfaces := sorted.length,
                         active_interfaces := res.2.1,
                         high_utilization_interfaces := res.2.2.1,
                         error_interfaces := res.2.2.2 } }
    | _ => .error "Failed to retrieve port utilization data: interface status not a mapping"

/-- Outcome of a script main: either the report printed to stdout with the
exit code, or the two-field error document printed to stdout plus the
stderr line and the exit code. -/
inductive MainOutcome (ρ : Type) where
  | reportOut (r : ρ) (exitCode : ℕ)
  | errorDoc (error : String) (success : Bool) (stderrLine : String) (exitCode : ℕ)

/-- Lines 300 to 350 of the arista script main, from the get_port_utilization
result onward: success prints the report and exits 0; any exception prints
Error to stderr, the error document to stdout, and exits 1. -/
def aristaMain (res : Except String AristaReport) : MainOutcome AristaReport :=
  match res with
  | .ok r => .reportOut r 0
  | .error msg => .errorDoc msg false ("Error: " ++ msg) 1

/-!  cisco-ios-xe-bgp-status.py.

The text parsing of the command outputs happens before the code modelled
here; the summary computation (lines 175 to 178), the exception handling
of get_bgp_neighbors (lines 202 to 227) and the dispatch in main (lines
240 to 285) are embedded.  Python exceptions at this level are embedded as
PyException: the two paramiko classes the code tests with isinstance, the
RuntimeError the script itself raises, and a generic exception; str(e) is
the carried message. -/

/-- Exceptions distinguished by the bgp script handlers. -/
inductive PyException where
  | noValidConn (msg : String)
  | authFail (msg : String)
  | runtime (msg : String)
  | generic (msg : String)
  deriving DecidableEq

/-- Python str(e) on the embedded exceptions. -/
def excMsg : PyException → String
  | .noValidConn m => m
  | .authFail m => m
  | .runtime m => m
  | .generic m => m

/-- isinstance(e, paramiko.ssh_exception.NoValidConnectionsError). -/
def isParamikoConnExc : PyException → Bool
  | .noValidConn _ => true
  | _ => false

/-- isinstance(e, paramiko.ssh_exception.AuthenticationException). -/
def isParamikoAuthExc : PyException → Bool
  | .authFail _ => true
  | _ => false

/-- One parsed neighbor record (lines 163 to 171). -/
structure BgpNeighbor where
  neighbor_ip : String
  remote_as : String
  state : String
  uptime : String
  prefixes_received : ℕ
  prefixes_sent : ℕ
  description : String
  deriving DecidableEq

/-- Summary block of lines 193 to 197. -/
structure BgpSummary where
  total_neighbors : ℕ
  established_sessions : ℕ
  down_sessions : ℕ
  deriving DecidableEq

/-- Lines 175 to 178: total is the neighbor count, established counts the
records whose state equals "Established", and down is total minus
established. -/
def bgpSummaryOf (neighbors : List BgpNeighbor) : BgpSummary :=
  let total_neighbors := neighbors.length
  let established_sessions := neighbors.countP (fun n => n.state == "Established")
  { total_neighbors := total_neighbors,
    established_sessions := established_sessions,
    down_sessions := total_neighbors - established_sessions }

/-- Full result structure of get_bgp_neighbors (device, bgp, neighbors,
summary and the optional status annotation), flattened. -/
structure BgpReport where
  hostname : String
  platform : String
  local_as : String
  router_id : String
  neighbors : List BgpNeighbor
  summary : BgpSummary
  status : Option String
  deriving DecidableEq

/-- Line 208: the error-text signature the script treats as the
subsystem-inactive signal. -/
def isInactiveMsg (m : String) : Bool :=
  strIn "No existing session" m || strIn "BGP not active" m || strIn "%BGP" m

/-- Lines 209 to 225: the degraded-but-valid report returned when the
inactive signature matches, with identity fields taken from the locals
bound before the exception when available. -/
def bgpInactiveReport (hostname platform : String) : BgpReport :=
  { hostname := hostname, platform := platform,
    local_as := "Not configured", router_id := "Not configured",
    neighbors := [],
    summary := { total_neighbors := 0, established_sessions := 0, down_sessions := 0 },
    status := some "BGP not configured or not active on this device" }

/-- Lines 202 to 227: the except clauses of get_bgp_neighbors applied to
an exception raised inside its try block.  hostnameLocal and platformLocal
are the values of the hostname and platform locals if they were bound
before the exception. -/
def bgpHandleExc (host : String) (hostnameLocal platformLocal : Option String)
    (e : PyException) : Except PyException BgpReport :=
  match e with
  | .noValidConn m => .error (.runtime ("Failed to connect to device: " ++ m))
  | .authFail m => .error (.runtime ("Authentication failed: " ++ m))
  | e' =>
    if isInactiveMsg (excMsg e') then
      .ok (bgpInactiveReport (hostnameLocal.getD host) (platformLocal.getD "Cisco IOS-XE"))
    else
      .error (.runtime ("Failed to retrieve BGP neighbor information: " ++ excMsg e'))

/-- Lines 252 to 268: the not-configured report main builds at the CLI
boundary, with the hostname taken from the host argument. -/
def bgpNotConfiguredReport (host : String) : BgpReport :=
  { hostname := host, platform := "Cisco IOS-XE",
    local_as := "Not configured", router_id := "Not configured",
    neighbors := [],
    summary := { total_neighbors := 0, established_sessions := 0, down_sessions := 0 },
    status := some "BGP not configured or not active on this device" }

/-- Lines 246 to 285: the handler main applies to an exception escaping
get_bgp_neighbors: when the exception is neither paramiko class and its
message contains "BGP" or "No existing session", print the not-configured
report and exit 0; otherwise re-raise into the outer handler, which prints
the error document and exits 1. -/
def bgpMainHandle (host : String) (e : PyException) : MainOutcome BgpReport :=
  if (!isParamikoConnExc e && !isParamikoAuthExc e)
      && (strIn "BGP" (excMsg e) || strIn "No existing session" (excMsg e)) then
    .reportOut (bgpNotConfiguredReport host) 0
  else
    .errorDoc (excMsg e) false ("Error: " ++ excMsg e) 1

/-- Lines 240 to 285: main over the result of get_bgp_neighbors. -/
def bgpMainOnResult (host : String) (res : Except PyException BgpReport) :
    MainOutcome BgpReport :=
  match res with
  | .ok r => .reportOut r 0
  | .error e => bgpMainHandle host e

/-- End-to-end outcome of the bgp script when the collaborator raises
exception e inside the try block of get_bgp_neighbors. -/
def bgpPipelineOnExc (host : String) (hostnameLocal platformLocal : Option String)
    (e : PyException) : MainOutcome BgpReport :=
  bgpMainOnResult host (bgpHandleExc host hostnameLocal platformLocal e)

/-!  juniper-junos-ospf-status.py.

Embedded from the point where the RPC reply has been parsed into neighbor
nodes; each XML node is an association of tag name to text, and findtext
returns none for an absent tag, as etree findtext returns None. -/

/-- One neighbor entry of lines 131 to 139. -/
structure OspfNeighborInfo where
  neighbor_id : Option String
  neighbor_address : Option String
  interface : Option String
  state : Option String
  area : Option String
  adjacency_time : Option String
  dead_time : Option String
  deriving DecidableEq

/-- nbr.findtext(tag): the text of the tag when present, else none. -/
def findtext (nbr : List (String × String)) (tag : String) : Option String :=
  match nbr.find? (fun p => p.1 == tag) with
  | some p => some p.2
  | none => none

/-- Lines 108 to 141: the neighbor loop, collecting the entries in order
together with the full and non-full counters (exactly one of which is
incremented per node) and the encountered areas in order. -/
def processOspfNeighbors :
    List (List (String × String)) →
      List OspfNeighborInfo × ℕ × ℕ × List (Option String)
  | [] => ([], 0, 0, [])
  | nbr :: rest =>
    let state := findtext nbr "ospf-neighbor-state"
    let ospf_area := findtext nbr "ospf-area"
    let info : OspfNeighborInfo :=
      { neighbor_id := findtext nbr "neighbor-id",
        neighbor_address := findtext nbr "neighbor-address",
        interface := findtext nbr "interface-name",
        state := state,
        area := ospf_area,
        adjacency_time := findtext nbr "neighbor-adjacency-time",
        dead_time := findtext nbr "ospf-neighbor-dead-time" }
    let acc := processOspfNeighbors rest
    (info :: acc.1,
     (if state == some "Full" then 1 else 0) + acc.2.1,
     (if state == some "Full" then 0 else 1) + acc.2.2.1,
     ospf_area :: acc.2.2.2)

/-- Summary block of lines 144 to 149.  The areas are collected in a
Python set whose iteration order is unspecified; they are modelled as the
deduplicated encounter-order list. -/
structure OspfSummary where
  total_neighbors : ℕ
  full_state_neighbors : ℕ
  non_full_state_neighbors : ℕ
  areas : List (Option String)
  deriving DecidableEq

/-- Lines 108 to 149: neighbors list and summary from the parsed nodes. -/
def ospfSummaryOf (nodes : List (List (String × String))) : OspfSummary :=
  let acc := processOspfNeighbors nodes
  { total_neighbors := acc.1.length,
    full_state_neighbors := acc.2.1,
    non_full_state_neighbors := acc.2.2.1,
    areas := acc.2.2.2.dedup }

/-- Device identity block of lines 94 to 99 of the ospf script. -/
structure JunosDeviceInfo where
  hostname : JVal
  platform : JVal
  model : JVal
  version : JVal

/-- Lines 94 to 99: the identity block is built by direct subscripting of
dev.facts; a missing fact raises (KeyError), which the outer except of
get_ospf_neighbors re-raises as a RuntimeError. -/
def get_ospf_device_info (facts : List (String × JVal)) : Except PyErr JunosDeviceInfo := do
  let h ← pySubscript (JVal.obj facts) "hostname"
  let m ← pySubscript (JVal.obj facts) "model"
  let v ← pySubscript (JVal.obj facts) "version"
  pure { hostname := h, platform := JVal.str "Juniper JUNOS", model := m, version := v }

/-!  dns-domain-checker.py. -/

/-- Outcome of the socket.gethostbyname collaborator call: resolution,
DNS failure (socket.gaierror), or any other exception. -/
inductive DnsResolution where
  | resolved (ip : String)
  | gaierror (msg : String)
  | otherExc (msg : String)
  deriving DecidableEq

/-- Lines 69 to 75: resolution yields (True, ip); a gaierror is absorbed
into (False, None); any other exception propagates. -/
def check_dns_record_exists (res : DnsResolution) :
    Except PyException (Bool × Option String) :=
  match res with
  | .resolved ip => .ok (true, some ip)
  | .gaierror _ => .ok (false, none)
  | .otherExc m => .error (.generic m)

/-- What the dns script prints and its exit code. -/
structure DnsOutcome where
  stdout : List String
  stderr : List String
  exitCode : ℕ
  deriving DecidableEq

/-- Lines 99 to 126: main prints the text verdict and exits 0 whether or
not the record exists; the module-level handler prints Error to stderr and
exits 1 for any exception.  The truthiness test on ip_address suppresses
the IP line for an empty string. -/
def dns_main (hostname : String) (res : DnsResolution) : DnsOutcome :=
  match check_dns_record_exists res with
  | .ok (ex, ip?) =>
    if ex then
      { stdout := ("DNS record for " ++ hostname ++ " exists.") ::
          (match ip? with
           | some ip => if ip == "" then [] else ["IP address: " ++ ip]
           | none => []),
        stderr := [], exitCode := 0 }
    else
      { stdout := ["DNS record for " ++ hostname ++ " does not exist."],
        stderr := [], exitCode := 0 }
  | .error e =>
    { stdout := [], stderr := ["Error: " ++ excMsg e], exitCode := 1 }

/-!  Lemmas identifying the executable rational operations with the
standard field operations, and general-purpose helper lemmas. -/

/-- qmul is multiplication. -/
theorem qmul_eq_mul (a b : ℚ) : qmul a b = a * b := by
  unfold qmul
  rw [Rat.mkRat_eq_div]
  push_cast
  calc ((a.num : ℚ) * b.num) / ((a.den : ℚ) * b.den)
      = ((a.num : ℚ) / a.den) * ((b.num : ℚ) / b.den) := (div_mul_div_comm _ _ _ _).symm
    _ = a * b := by rw [Rat.num_div_den, Rat.num_div_den]

/-- qdiv is true division. -/
theorem qdiv_eq_div (a b : ℚ) : qdiv a b = a / b := by
  have hinv : b⁻¹ = (b.den : ℚ) / (b.num : ℚ) := by
    rw [Rat.inv_def', Rat.divInt_eq_div]
    norm_cast
  have key : ((a.num : ℚ) * b.den) / ((a.den : ℚ) * b.num) = a / b := by
    conv_rhs => rw [div_eq_mul_inv, hinv]
    calc ((a.num : ℚ) * b.den) / ((a.den : ℚ) * b.num)
        = ((a.num : ℚ) / a.den) * ((b.den : ℚ) / b.num) := (div_mul_div_comm _ _ _ _).symm
      _ = a * ((b.den : ℚ) / b.num) := by rw [Rat.num_div_den]
  unfold qdiv
  by_cases h : b.num < 0
  · rw [if_pos h, Rat.mkRat_eq_div]
    push_cast [Int.cast_natAbs]
    rw [abs_of_neg (show ((b.num : ℤ) : ℚ) < 0 by exact_mod_cast h)]
    rw [mul_neg, neg_div_neg_eq]
    exact key
  · rw [if_neg h, Rat.mkRat_eq_div]
    push_cast [Int.cast_natAbs]
    rw [abs_of_nonneg (show (0 : ℚ) ≤ ((b.num : ℤ) : ℚ) by exact_mod_cast not_lt.mp h)]
    exact key

/-- qlt is the strict order. -/
theorem qlt_iff (a b : ℚ) : qlt a b = true ↔ a < b := by
  unfold qlt
  rw [decide_eq_true_iff]
  exact Rat.lt_def.symm

/-- Rounding a nonnegative rational to the nearest integer stays
nonnegative. -/
theorem roundHalfEven_nonneg {q : ℚ} (h : 0 ≤ q) : 0 ≤ roundHalfEven q := by
  have hnum : 0 ≤ q.num := Rat.num_nonneg.mpr h
  have hden : (0 : ℤ) ≤ (q.den : ℤ) := Int.natCast_nonneg _
  have hf : 0 ≤ Int.fdiv q.num (q.den : ℤ) := Int.fdiv_nonneg hnum hden
  simp only [roundHalfEven]
  split_ifs <;> omega

/-- round2 of a nonnegative rational is nonnegative. -/
theorem round2_nonneg {q : ℚ} (h : 0 ≤ q) : 0 ≤ round2 q := by
  unfold round2
  rw [Rat.mkRat_eq_div]
  apply div_nonneg _ (by norm_num)
  have h100 : 0 ≤ qmul q 100 := by
    rw [qmul_eq_mul]
    exact mul_nonneg h (by norm_num)
  exact_mod_cast roundHalfEven_nonneg h100

/-- round2 fixes zero. -/
theorem round2_zero : round2 0 = 0 := by decide

/-- A prefix of a list is a prefix of any extension of it. -/
theorem isPrefixOf_append {n l b : List Char} (h : n.isPrefixOf l = true) :
    n.isPrefixOf (l ++ b) = true := by
  induction n generalizing l with
  | nil => cases hl : l ++ b <;> rfl
  | cons x xs ih =>
    cases l with
    | nil => simp [List.isPrefixOf] at h
    | cons y ys =>
      simp only [List.cons_append, List.isPrefixOf, Bool.and_eq_true] at h ⊢
      exact ⟨h.1, ih h.2⟩

/-- A substring of a string is a substring of any extension of it. -/
theorem listIsInfix_append {n a b : List Char} (h : listIsInfix n a = true) :
    listIsInfix n (a ++ b) = true := by
  induction a with
  | nil =>
    have hn : n = [] := by simpa [listIsInfix, List.isEmpty_iff] using h
    subst hn
    cases b with
    | nil => rfl
    | cons c t => simp [listIsInfix, List.isPrefixOf]
  | cons c t ih =>
    simp only [listIsInfix, Bool.or_eq_true] at h
    simp only [List.cons_append, listIsInfix, Bool.or_eq_true]
    rcases h with h | h
    · exact Or.inl (by simpa [List.cons_append] using isPrefixOf_append (b := b) h)
    · exact Or.inr (ih h)

/-- strIn is preserved by appending on the right. -/
theorem strIn_append {n a b : String} (h : strIn n a = true) : strIn n (a ++ b) = true := by
  unfold strIn at h ⊢
  have hd : (a ++ b).toList = a.toList ++ b.toList := by
    simp [String.toList, String.data_append]
  rw [hd]
  exact listIsInfix_append h

/-- The rate extraction for an interface reads the rates table only
through the lookup at that interface name. -/
theorem extractRate_obj_congr (fs fs' : List (String × JVal)) (name key : String)
    (h : jlookup fs' name = jlookup fs name) :
    extractRate (JVal.obj fs') name key = extractRate (JVal.obj fs) name key := by
  simp only [extractRate, pyIn, pyGet, h]

/-- Reduction of the Except bind on a success value. -/
theorem ok_bind {α β : Type} (a : α) (f : α → Except PyErr β) :
    (Except.ok a >>= f : Except PyErr β) = f a := rfl

/-- Reduction of the Except bind on an error value. -/
theorem error_bind {α β : Type} (e : PyErr) (f : α → Except PyErr β) :
    (Except.error e >>= f : Except PyErr β) = Except.error e := rfl

/-- An absent rates entry, an entry without the rate key, or a rate value
on which float() raises TypeError or ValueError, all make the extraction
return the documented default 0. -/
theorem extractRate_default (fs : List (String × JVal)) (name key : String)
    (h : jlookup fs name = none
       ∨ (∃ e, jlookup fs name = some (JVal.obj e) ∧ jlookup e key = none)
       ∨ (∃ e v, jlookup fs name = some (JVal.obj e) ∧ jlookup e key = some v ∧
            (pyFloat v = Except.error PyErr.typeError
             ∨ pyFloat v = Except.error PyErr.valueError))) :
    extractRate (JVal.obj fs) name key = Except.ok 0 := by
  rcases h with h | ⟨e, he, hk⟩ | ⟨e, v, he, hk, hbad⟩
  · simp only [extractRate, pyIn, pyGet, h, ok_bind]
    rfl
  · simp only [extractRate, pyIn, pyGet, he, ok_bind]
    simp only [Option.isSome_some, if_true, Option.getD_some, ok_bind, hk]
    rfl
  · rcases hbad with hbad | hbad <;>
    · simp only [extractRate, pyIn, pyGet, he, ok_bind]
      simp only [Option.isSome_some, if_true, Option.getD_some, ok_bind, hk, Option.getD_some]
      simp [hbad, catchTKV]

/-- The shape of a fully successful per-interface iteration. -/
theorem processInterface_eq (th : ℚ) (descs rates errs : JVal) (name : String) (st : JVal)
    {d op : JVal} {bw inR outR : ℚ} {ie oe : ℤ}
    (hd : extractDescription descs name = Except.ok d)
    (hb : extractBandwidth st = Except.ok bw)
    (ho : extractOperStatus st = Except.ok op)
    (hri : extractRate rates name "inRate" = Except.ok inR)
    (hro : extractRate rates name "outRate" = Except.ok outR)
    (hei : extractErr errs name "inErrors" = Except.ok ie)
    (heo : extractErr errs name "outErrors" = Except.ok oe) :
    processInterface th descs rates errs name st
      = (some (buildInterfaceInfo th name d op bw inR outR ie oe),
         jvalEqStr op "up",
         qlt th (if qlt 0 bw then qmul (qdiv inR bw) 100 else 0)
           || qlt th (if qlt 0 bw then qmul (qdiv outR bw) 100 else 0),
         decide (0 < ie) || decide (0 < oe)) := by
  simp only [processInterface, hd, hb, ho, hri, hro, hei, heo]

/-- The output list of the arista report is sorted by the ranking key. -/
theorem sortInterfaces_sorted (l : List InterfaceInfo) :
    (sortInterfaces l).Pairwise (fun a b => utilizationRank b ≤ utilizationRank a) := by
  haveI : IsTotal InterfaceInfo (fun a b => utilizationRank b ≤ utilizationRank a) :=
    ⟨fun a b => le_total _ _⟩
  haveI : IsTrans InterfaceInfo (fun a b => utilizationRank b ≤ utilizationRank a) :=
    ⟨fun _ _ _ h1 h2 => le_trans h2 h1⟩
  exact List.sorted_insertionSort _ l

/-- In the ospf loop, exactly one of the two counters is incremented per
node, so they sum to the number of collected neighbors. -/
theorem processOspfNeighbors_counts (nodes : List (List (String × String))) :
    (processOspfNeighbors nodes).2.1 + (processOspfNeighbors nodes).2.2.1
      = (processOspfNeighbors nodes).1.length := by
  induction nodes with
  | nil => rfl
  | cons nbr rest ih =>
    simp only [processOspfNeighbors, List.length_cons]
    cases h : (findtext nbr "ospf-neighbor-state" == some "Full") <;> simp [h] <;> omega

/-!  Claim theorems. -/

/-- C3 counterexample: a device_raw with no hostname key does not give
Report.device.hostname = "Unknown"; the arista script replaces the
"Unknown" default with the connection host (line 96 to 97). -/
theorem c3_counterexample :
    (resolveDevice "192.0.2.7" (JVal.obj [])).map DeviceInfo.hostname
      = Except.ok (JVal.str "192.0.2.7")
    ∧ JVal.str "192.0.2.7" ≠ JVal.str "Unknown" := by
  refine ⟨rfl, fun h => ?_⟩
  injection h with h'
  exact absurd h' (by decide)

/-- C3 amended: in the arista script, a device_raw mapping with a missing
modelName, serialNumber or version key yields the literal "Unknown" for
that slot, a missing hostname key yields the connection host (not
"Unknown"), the platform slot is the constant "Arista EOS", and identity
resolution never raises on a mapping input; in the juniper script a
missing hostname fact makes identity resolution fail (it raises a
KeyError) instead of defaulting. -/
theorem c3_identity_defaults (host : String) (vfs facts : List (String × JVal)) :
    (resolveDevice host (JVal.obj vfs)).isOk = true
    ∧ (∀ d, resolveDevice host (JVal.obj vfs) = Except.ok d →
        (jlookup vfs "modelName" = none → d.model = JVal.str "Unknown")
        ∧ (jlookup vfs "serialNumber" = none → d.serial_number = JVal.str "Unknown")
        ∧ (jlookup vfs "version" = none → d.version = JVal.str "Unknown")
        ∧ (jlookup vfs "hostname" = none → d.hostname = JVal.str host)
        ∧ d.platform = JVal.str "Arista EOS")
    ∧ (jlookup facts "hostname" = none → (get_ospf_device_info facts).isOk = false) := by
  refine ⟨rfl, ?_, ?_⟩
  · intro d hd
    have hres : resolveDevice host (JVal.obj vfs)
        = Except.ok
            { hostname :=
                if jvalEqStr ((jlookup vfs "hostname").getD (JVal.str "Unknown")) "Unknown"
                then JVal.str host
                else (jlookup vfs "hostname").getD (JVal.str "Unknown"),
              platform := JVal.str "Arista EOS",
              model := (jlookup vfs "modelName").getD (JVal.str "Unknown"),
              serial_number := (jlookup vfs "serialNumber").getD (JVal.str "Unknown"),
              version := (jlookup vfs "version").getD (JVal.str "Unknown") } := rfl
    rw [hres] at hd
    injection hd with hd'
    subst hd'
    refine ⟨fun h => by simp [h], fun h => by simp [h], fun h => by simp [h],
            fun h => by simp [h, jvalEqStr], rfl⟩
  · intro hf
    simp [get_ospf_device_info, pySubscript, hf, error_bind, Except.isOk, Except.toBool]

/-- C3 witness: concrete instances of the amended claim. -/
theorem c3_witness :
    (resolveDevice "192.0.2.7" (JVal.obj [])).isOk = true
    ∧ (get_ospf_device_info ([] : List (String × JVal))).isOk = false :=
  ⟨(c3_identity_defaults "192.0.2.7" [] []).1,
   (c3_identity_defaults "192.0.2.7" [] []).2.2 rfl⟩

/-- C4: in both status scripts the two complementary state counters sum to
the total, and the complementary counter equals total minus the first
counter: established plus down sessions equals the total neighbors in the
bgp summary, and full plus non-full states equals the total neighbors in
the ospf summary. -/
theorem c4_complementary_counters (neighbors : List BgpNeighbor)
    (nodes : List (List (String × String))) :
    (bgpSummaryOf neighbors).established_sessions + (bgpSummaryOf neighbors).down_sessions
        = (bgpSummaryOf neighbors).total_neighbors
    ∧ (bgpSummaryOf neighbors).down_sessions
        = (bgpSummaryOf neighbors).total_neighbors - (bgpSummaryOf neighbors).established_sessions
    ∧ (ospfSummaryOf nodes).full_state_neighbors + (ospfSummaryOf nodes).non_full_state_neighbors
        = (ospfSummaryOf nodes).total_neighbors
    ∧ (ospfSummaryOf nodes).non_full_state_neighbors
        = (ospfSummaryOf nodes).total_neighbors - (ospfSummaryOf nodes).full_state_neighbors := by
  have hle := List.countP_le_length (fun n => n.state == "Established") (l := neighbors)
  have hospf := processOspfNeighbors_counts nodes
  unfold bgpSummaryOf ospfSummaryOf
  dsimp only
  refine ⟨?_, ?_, ?_, ?_⟩ <;> omega

/-- C5: a subsystem-inactive signal (a generic exception whose message
matches the recognized signature) raised inside get_bgp_neighbors produces
the structurally valid empty report: neighbors empty, summary counters all
zero, identity fields populated from the locals where known, a status
string describing the inactive condition, and exit code 0. -/
theorem c5_inactive_degrades (host : String) (hostnameLocal platformLocal : Option String)
    (msg : String) (h : isInactiveMsg msg = true) :
    bgpPipelineOnExc host hostnameLocal platformLocal (PyException.generic msg)
      = MainOutcome.reportOut
          (bgpInactiveReport (hostnameLocal.getD host) (platformLocal.getD "Cisco IOS-XE")) 0
    ∧ (bgpInactiveReport (hostnameLocal.getD host) (platformLocal.getD "Cisco IOS-XE")).neighbors
        = []
    ∧ (bgpInactiveReport (hostnameLocal.getD host) (platformLocal.getD "Cisco IOS-XE")).summary
        = { total_neighbors := 0, established_sessions := 0, down_sessions := 0 }
    ∧ (bgpInactiveReport (hostnameLocal.getD host) (platformLocal.getD "Cisco IOS-XE")).status
        = some "BGP not configured or not active on this device" := by
  refine ⟨?_, rfl, rfl, rfl⟩
  unfold bgpPipelineOnExc bgpHandleExc bgpMainOnResult
  simp [excMsg, h]

/-- C5 witness: a concrete inactive signal. -/
theorem c5_witness :
    bgpPipelineOnExc "r1" none none (PyException.generic "BGP not active")
      = MainOutcome.reportOut (bgpInactiveReport "r1" "Cisco IOS-XE") 0 :=
  (c5_inactive_degrades "r1" none none "BGP not active" (by decide)).1

/-- C9: at the CLI boundary of the bgp script, any exception that is not
one of the two paramiko classes and whose message contains "BGP" is turned
into the not-configured report with exit code 0, never the error document;
and any generic failure inside get_bgp_neighbors ends with exit code 0 and
an empty-neighbors not-configured report, because the fallback handler
re-wraps it with a message that contains "BGP". -/
theorem c9_bgp_wrapping_exits_zero (host : String) (hostnameLocal platformLocal : Option String)
    (e : PyException) (msg : String)
    (h1 : isParamikoConnExc e = false) (h2 : isParamikoAuthExc e = false)
    (h3 : strIn "BGP" (excMsg e) = true) :
    bgpMainHandle host e = MainOutcome.reportOut (bgpNotConfiguredReport host) 0
    ∧ ∃ r, bgpPipelineOnExc host hostnameLocal platformLocal (PyException.generic msg)
             = MainOutcome.reportOut r 0
         ∧ r.neighbors = []
         ∧ r.summary = { total_neighbors := 0, established_sessions := 0, down_sessions := 0 }
         ∧ r.status = some "BGP not configured or not active on this device" := by
  constructor
  · unfold bgpMainHandle
    rw [h1, h2, h3]
    simp
  · by_cases hi : isInactiveMsg msg = true
    · refine ⟨bgpInactiveReport (hostnameLocal.getD host) (platformLocal.getD "Cisco IOS-XE"),
             ?_, rfl, rfl, rfl⟩
      unfold bgpPipelineOnExc bgpHandleExc bgpMainOnResult
      simp [excMsg, hi]
    · have hw : strIn "BGP" ("Failed to retrieve BGP neighbor information: " ++ msg) = true :=
        strIn_append (by decide)
      refine ⟨bgpNotConfiguredReport host, ?_, rfl, rfl, rfl⟩
      unfold bgpPipelineOnExc bgpHandleExc bgpMainOnResult bgpMainHandle
      simp [excMsg, hi, hw, isParamikoConnExc, isParamikoAuthExc]

/-- C9 witness: a concrete non-paramiko exception with "BGP" in its
message, and a concrete generic failure. -/
theorem c9_witness :
    bgpMainHandle "r1" (PyException.runtime "external BGP checker failed")
      = MainOutcome.reportOut (bgpNotConfiguredReport "r1") 0 :=
  (c9_bgp_wrapping_exits_zero "r1" none none (PyException.runtime "external BGP checker failed")
    "boom" rfl rfl (by decide)).1

/-- C6 counterexample: a connection failure (a fetch-level failure) whose
message happens to contain "BGP" is not escalated to the error document
with exit code 1; the bgp script converts it into the not-configured
report with exit code 0, because the wrapped RuntimeError is no longer a
paramiko exception instance and its text matches the string test in main. -/
theorem c6_counterexample :
    bgpPipelineOnExc "10.0.0.1" none none
        (PyException.noValidConn "BGP peer port unreachable")
      = MainOutcome.reportOut (bgpNotConfiguredReport "10.0.0.1") 0 := by
  unfold bgpPipelineOnExc bgpHandleExc bgpMainOnResult bgpMainHandle
  simp [excMsg, isParamikoConnExc, isParamikoAuthExc]
  decide

/-- C6 amended: every fetch-level failure in the arista script, and every
fetch-level failure in the bgp script whose wrapped message contains
neither "BGP" nor "No existing session", escalates to the CLI boundary,
which emits the two-field error document with success false to stdout, a
human-readable Error line to stderr, and exit code 1.  (A bgp fetch
failure whose message contains one of those substrings instead produces
the not-configured report with exit code 0, as the counterexample shows.) -/
theorem c6_fetch_failure_error_doc :
    (∀ msg : String,
      aristaMain (Except.error msg)
        = MainOutcome.errorDoc msg false ("Error: " ++ msg) 1)
    ∧ (∀ (host m : String) (hostnameLocal platformLocal : Option String),
        strIn "BGP" ("Failed to connect to device: " ++ m) = false →
        strIn "No existing session" ("Failed to connect to device: " ++ m) = false →
        bgpPipelineOnExc host hostnameLocal platformLocal (PyException.noValidConn m)
          = MainOutcome.errorDoc ("Failed to connect to device: " ++ m) false
              ("Error: " ++ ("Failed to connect to device: " ++ m)) 1)
    ∧ (∀ (host m : String) (hostnameLocal platformLocal : Option String),
        strIn "BGP" ("Authentication failed: " ++ m) = false →
        strIn "No existing session" ("Authentication failed: " ++ m) = false →
        bgpPipelineOnExc host hostnameLocal platformLocal (PyException.authFail m)
          = MainOutcome.errorDoc ("Authentication failed: " ++ m) false
              ("Error: " ++ ("Authentication failed: " ++ m)) 1) := by
  refine ⟨fun msg => rfl, ?_, ?_⟩
  · intro host m hostnameLocal platformLocal hb hs
    unfold bgpPipelineOnExc bgpHandleExc bgpMainOnResult bgpMainHandle
    simp [excMsg, isParamikoConnExc, isParamikoAuthExc, hb, hs]
  · intro host m hostnameLocal platformLocal hb hs
    unfold bgpPipelineOnExc bgpHandleExc bgpMainOnResult bgpMainHandle
    simp [excMsg, isParamikoConnExc, isParamikoAuthExc, hb, hs]

/-- C6 witness: a concrete arista failure and a concrete bgp connection
failure without the magic substrings. -/
theorem c6_witness :
    aristaMain (Except.error "boom") = MainOutcome.errorDoc "boom" false "Error: boom" 1
    ∧ bgpPipelineOnExc "10.0.0.1" none none (PyException.noValidConn "timeout")
        = MainOutcome.errorDoc ("Failed to connect to device: " ++ "timeout") false
            ("Error: " ++ ("Failed to connect to device: " ++ "timeout")) 1 :=
  ⟨c6_fetch_failure_error_doc.1 "boom",
   c6_fetch_failure_error_doc.2.1 "10.0.0.1" "timeout" none none (by decide) (by decide)⟩

/-- C10: the dns checker returns (True, ip) on resolution and (False,
None) on a DNS resolution failure without raising, and main exits 0 in
both cases, leaving exit code 1 to unexpected exceptions only. -/
theorem c10_dns_exit_codes (h ip m mo : String) :
    check_dns_record_exists (DnsResolution.resolved ip) = Except.ok (true, some ip)
    ∧ check_dns_record_exists (DnsResolution.gaierror m) = Except.ok (false, none)
    ∧ (dns_main h (DnsResolution.resolved ip)).exitCode = 0
    ∧ (dns_main h (DnsResolution.gaierror m)).exitCode = 0
    ∧ (dns_main h (DnsResolution.otherExc mo)).exitCode = 1 :=
  ⟨rfl, rfl, rfl, rfl, rfl⟩

/-- C1: when the numeric side-table entry for an interface is absent, or
its rate field is absent or of a type float() rejects, the rate extraction
returns the default 0, so the item is produced with input rate and input
utilization 0 while every other field keeps the value extracted from the
other tables; the processing of any interface depends on the rates table
only through its own entry, so sibling items are unaffected; and the
normalizer returns a report (no exception escapes) on any mapping-shaped
inputs. -/
theorem c1_malformed_rate_field_defaults (th : ℚ) (descs errs st : JVal)
    (host iname : String) (vfs sfs fs : List (String × JVal))
    (hdef : jlookup fs iname = none
        ∨ (∃ e, jlookup fs iname = some (JVal.obj e) ∧ jlookup e "inRate" = none)
        ∨ (∃ e v, jlookup fs iname = some (JVal.obj e) ∧ jlookup e "inRate" = some v ∧
             (pyFloat v = Except.error PyErr.typeError
              ∨ pyFloat v = Except.error PyErr.valueError))) :
    extractRate (JVal.obj fs) iname "inRate" = Except.ok 0
    ∧ (∀ (d op : JVal) (bw outR : ℚ) (ie oe : ℤ),
        extractDescription descs iname = Except.ok d →
        extractBandwidth st = Except.ok bw →
        extractOperStatus st = Except.ok op →
        extractRate (JVal.obj fs) iname "outRate" = Except.ok outR →
        extractErr errs iname "inErrors" = Except.ok ie →
        extractErr errs iname "outErrors" = Except.ok oe →
        (processInterface th descs (JVal.obj fs) errs iname st).1
          = some (buildInterfaceInfo th iname d op bw 0 outR ie oe)
        ∧ (buildInterfaceInfo th iname d op bw 0 outR ie oe).input_rate_mbps = 0
        ∧ (buildInterfaceInfo th iname d op bw 0 outR ie oe).input_utilization = 0
        ∧ (buildInterfaceInfo th iname d op bw 0 outR ie oe).name = iname
        ∧ (buildInterfaceInfo th iname d op bw 0 outR ie oe).description = d
        ∧ (buildInterfaceInfo th iname d op bw 0 outR ie oe).status = op
        ∧ (buildInterfaceInfo th iname d op bw 0 outR ie oe).bandwidth_mbps = bw
        ∧ (buildInterfaceInfo th iname d op bw 0 outR ie oe).output_rate_mbps = round2 outR
        ∧ (buildInterfaceInfo th iname d op bw 0 outR ie oe).input_errors = ie
        ∧ (buildInterfaceInfo th iname d op bw 0 outR ie oe).output_errors = oe)
    ∧ (∀ (fs' : List (String × JVal)) (j : String) (st' : JVal),
        jlookup fs' j = jlookup fs j →
        processInterface th descs (JVal.obj fs') errs j st'
          = processInterface th descs (JVal.obj fs) errs j st')
    ∧ (get_port_utilization host (JVal.obj vfs) descs (JVal.obj sfs) (JVal.obj fs) errs th).isOk
        = true := by
  have h0 : extractRate (JVal.obj fs) iname "inRate" = Except.ok 0 :=
    extractRate_default fs iname "inRate" hdef
  refine ⟨h0, ?_, ?_, rfl⟩
  · intro d op bw outR ie oe hd hb ho hro hei heo
    have hp := processInterface_eq th descs (JVal.obj fs) errs iname st hd hb ho h0 hro hei heo
    have hzero : (if qlt 0 bw then qmul (qdiv 0 bw) 100 else 0) = (0 : ℚ) := by
      cases hq : qlt 0 bw
      · simp
      · simp [qmul_eq_mul, qdiv_eq_div]
    refine ⟨by rw [hp], ?_, ?_, rfl, rfl, rfl, rfl, rfl, rfl, rfl⟩
    · show round2 0 = 0
      exact round2_zero
    · show round2 (if qlt 0 bw then qmul (qdiv 0 bw) 100 else 0) = 0
      rw [hzero, round2_zero]
  · intro fs' j st' hagree
    simp only [processInterface,
      extractRate_obj_congr fs fs' j "inRate" hagree,
      extractRate_obj_congr fs fs' j "outRate" hagree]

/-- C1 witness: a rates entry whose inRate field is a non-numeric string
defaults to a 0 rate. -/
theorem c1_witness :
    extractRate (JVal.obj [("Ethernet1",
        JVal.obj [("inRate", JVal.str "garbage"), ("outRate", JVal.num 100)])])
      "Ethernet1" "inRate" = Except.ok 0 :=
  (c1_malformed_rate_field_defaults 70 (JVal.obj []) (JVal.obj []) (JVal.obj [])
    "10.0.0.1" "Ethernet1" [] []
    [("Ethernet1", JVal.obj [("inRate", JVal.str "garbage"), ("outRate", JVal.num 100)])]
    (Or.inr (Or.inr ⟨[("inRate", JVal.str "garbage"), ("outRate", JVal.num 100)],
      JVal.str "garbage", rfl, rfl, Or.inr rfl⟩))).1

/-- C2 counterexample: a raw inRate of -5 on a 1000 Mbps interface is
parsed by float() and produces the negative derived percentage -1/2, so
the derived utilization percentage is not always nonnegative. -/
theorem c2_counterexample :
    ((get_port_utilization "10.0.0.1" (JVal.obj []) (JVal.obj [])
        (JVal.obj [("Ethernet1",
          JVal.obj [("bandwidth", JVal.num 1000000000), ("linkStatus", JVal.str "up")])])
        (JVal.obj [("Ethernet1", JVal.obj [("inRate", JVal.num (mkRat (-5) 1))])])
        (JVal.obj []) 70).map
      (fun r => r.interfaces.map InterfaceInfo.input_utilization))
      = Except.ok [mkRat (-1) 2]
    ∧ mkRat (-1) 2 < 0 := by
  refine ⟨rfl, ?_⟩
  rw [Rat.mkRat_eq_div]
  norm_num

/-- C2 amended: each derived utilization percentage equals exactly
round(rate divided by capacity times 100, to two decimals) when the
capacity is positive, and equals 0 when the capacity is not positive (the
division is avoided by this guard, not caught as an exception); it is
therefore nonnegative whenever the parsed rate is nonnegative, though a
negative raw rate does produce a negative percentage. -/
theorem c2_utilization_formula (th : ℚ) (name : String) (d op : JVal)
    (bw inR outR : ℚ) (ie oe : ℤ) :
    (0 < bw →
      (buildInterfaceInfo th name d op bw inR outR ie oe).input_utilization
          = round2 (inR / bw * 100)
      ∧ (buildInterfaceInfo th name d op bw inR outR ie oe).output_utilization
          = round2 (outR / bw * 100))
    ∧ (¬ 0 < bw →
      (buildInterfaceInfo th name d op bw inR outR ie oe).input_utilization = 0
      ∧ (buildInterfaceInfo th name d op bw inR outR ie oe).output_utilization = 0)
    ∧ (0 ≤ inR → 0 < bw →
        0 ≤ (buildInterfaceInfo th name d op bw inR outR ie oe).input_utilization)
    ∧ (0 ≤ outR → 0 < bw →
        0 ≤ (buildInterfaceInfo th name d op bw inR outR ie oe).output_utilization)
    ∧ (¬ 0 < bw →
        0 ≤ (buildInterfaceInfo th name d op bw inR outR ie oe).input_utilization) := by
  by_cases hbw : 0 < bw
  · have hq : qlt 0 bw = true := (qlt_iff 0 bw).mpr hbw
    simp only [buildInterfaceInfo, hq, if_true, qmul_eq_mul, qdiv_eq_div]
    refine ⟨fun _ => ⟨by trivial, by trivial⟩, fun h => absurd hbw h, fun hin _ => ?_,
            fun hout _ => ?_, fun h => absurd hbw h⟩
    · exact round2_nonneg (mul_nonneg (div_nonneg hin hbw.le) (by norm_num))
    · exact round2_nonneg (mul_nonneg (div_nonneg hout hbw.le) (by norm_num))
  · have hq : qlt 0 bw = false := by
      cases h : qlt 0 bw
      · rfl
      · exact absurd ((qlt_iff 0 bw).mp h) hbw
    simp only [buildInterfaceInfo, hq, Bool.false_eq_true, if_false, round2_zero]
    exact ⟨fun h => absurd h hbw, fun _ => ⟨by trivial, by trivial⟩, fun _ h => absurd h hbw,
           fun _ h => absurd h hbw, fun _ => by trivial⟩

/-- C2 witness: the formula and nonnegativity at concrete values. -/
theorem c2_witness :
    (buildInterfaceInfo 70 "Ethernet1" (JVal.str "") (JVal.str "up")
        1000 700 100 0 0).input_utilization = round2 ((700 : ℚ) / 1000 * 100)
    ∧ 0 ≤ (buildInterfaceInfo 70 "Ethernet1" (JVal.str "") (JVal.str "up")
        1000 700 100 0 0).input_utilization :=
  ⟨((c2_utilization_formula 70 "Ethernet1" (JVal.str "") (JVal.str "up")
      1000 700 100 0 0).1 (by norm_num)).1,
   (c2_utilization_formula 70 "Ethernet1" (JVal.str "") (JVal.str "up")
      1000 700 100 0 0).2.2.1 (by norm_num) (by norm_num)⟩

/-- C7: every report the normalizer returns has its interface sequence
sorted descending by the ranking key, the maximum of the two derived
utilization percentages: adjacent items a then b satisfy rank b at most
rank a. -/
theorem c7_sorted_descending (host : String) (version_data descs statuses rates errs : JVal)
    (threshold : ℚ) (r : AristaReport)
    (h : get_port_utilization host version_data descs statuses rates errs threshold
          = Except.ok r) :
    List.Chain' (fun a b => utilizationRank b ≤ utilizationRank a) r.interfaces := by
  unfold get_port_utilization at h
  cases hd : resolveDevice host version_data with
  | error e =>
    rw [hd] at h
    dsimp only at h
    simp at h
  | ok dev =>
    rw [hd] at h
    cases statuses with
    | obj sfs =>
      dsimp only at h
      injection h with h'
      subst h'
      exact List.Pairwise.chain' (sortInterfaces_sorted _)
    | num q => simp at h
    | str s => simp at h
    | bool b => simp at h
    | null => simp at h
    | arr xs => simp at h

/-- C7 witness: a two-interface run; the report carries the interfaces in
descending rank order 50 then 10. -/
theorem c7_witness :
    List.Chain' (fun a b => utilizationRank b ≤ utilizationRank a)
      (AristaReport.interfaces
        { device := { hostname := JVal.str "10.0.0.1", platform := JVal.str "Arista EOS",
                      model := JVal.str "Unknown", serial_number := JVal.str "Unknown",
                      version := JVal.str "Unknown" },
          interfaces :=
            [{ name := "Ethernet2", description := JVal.str "", status := JVal.str "up",
               bandwidth_mbps := 1000, input_rate_mbps := 500, output_rate_mbps := 200,
               input_utilization := 50, output_utilization := 20,
               input_errors := 0, output_errors := 0, high_utilization := false },
             { name := "Ethernet1", description := JVal.str "", status := JVal.str "up",
               bandwidth_mbps := 1000, input_rate_mbps := 0, output_rate_mbps := 100,
               input_utilization := 0, output_utilization := 10,
               input_errors := 0, output_errors := 0, high_utilization := false }],
          summary := { total_interfaces := 2, active_interfaces := 2,
                       high_utilization_interfaces := 0, error_interfaces := 0 } }) := by
  exact c7_sorted_descending "10.0.0.1" (JVal.obj []) (JVal.obj [])
    (JVal.obj [("Ethernet1",
        JVal.obj [("bandwidth", JVal.num 1000000000), ("linkStatus", JVal.str "up")]),
      ("Ethernet2",
        JVal.obj [("bandwidth", JVal.num 1000000000), ("linkStatus", JVal.str "up")])])
    (JVal.obj [("Ethernet1",
        JVal.obj [("inRate", JVal.str "garbage"), ("outRate", JVal.num 100)]),
      ("Ethernet2",
        JVal.obj [("inRate", JVal.num 500), ("outRate", JVal.num 200)])])
    (JVal.obj []) 70 _ rfl

/-- C8 counterexample: on the documented scenario the output utilization
is 10, not 0.01 as the claim states (100 divided by 1000 times 100 is 10,
rounded to 10). -/
theorem c8_counterexample :
    ((get_port_utilization "10.0.0.1" (JVal.obj []) (JVal.obj [])
        (JVal.obj [("Ethernet1",
          JVal.obj [("bandwidth", JVal.num 1000000000), ("linkStatus", JVal.str "up")])])
        (JVal.obj [("Ethernet1",
          JVal.obj [("inRate", JVal.num 700), ("outRate", JVal.num 100)])])
        (JVal.obj []) 70).map
      (fun r => r.interfaces.map InterfaceInfo.output_utilization))
      = Except.ok [(10 : ℚ)]
    ∧ (10 : ℚ) ≠ (0.01 : ℚ) := by
  refine ⟨rfl, ?_⟩
  norm_num

/-- C8 amended: on the scenario with bandwidth 1000000000, linkStatus up,
inRate 700, outRate 100 and threshold 70, the output item has
bandwidth_mbps 1000, input_utilization 70, high_utilization false (the
threshold comparison is strict), and output_utilization 10. -/
theorem c8_scenario :
    ((get_port_utilization "10.0.0.1" (JVal.obj []) (JVal.obj [])
        (JVal.obj [("Ethernet1",
          JVal.obj [("bandwidth", JVal.num 1000000000), ("linkStatus", JVal.str "up")])])
        (JVal.obj [("Ethernet1",
          JVal.obj [("inRate", JVal.num 700), ("outRate", JVal.num 100)])])
        (JVal.obj []) 70).map
      (fun r => r.interfaces.map (fun it =>
        (it.bandwidth_mbps, it.input_utilization, it.high_utilization,
         it.output_utilization))))
      = Except.ok [((1000 : ℚ), (70 : ℚ), false, (10 : ℚ))] := by
  rfl
